import Mathlib

/-!
Shallow embedding of the transcription pipeline in scripts/transcribe.py
(Volcengine Doubao ASR Flash client).  Pure functions of the source are
translated directly; the effectful pipeline (filesystem, FFmpeg subprocess,
HTTP POST) is embedded as pure functions over an explicit environment
record, with an effect trace recording how many network calls, FFmpeg
invocations and filesystem accesses occurred, and which temporary files
exist on disk when the invocation completes.
-/

namespace Transcribe

/-! ## Python-value model for parsed JSON bodies -/

/-- Model of a Python value as produced by response.json(): None, bool,
int, str, list or dict (dict modelled as an association list with unique
keys, first binding wins, matching dict.get). Floats never occur in the
bodies the script reads. -/
inductive PyVal where
  | none : PyVal
  | bool (b : Bool) : PyVal
  | int (n : Int) : PyVal
  | str (s : String) : PyVal
  | list (xs : List PyVal) : PyVal
  | dict (fields : List (String × PyVal)) : PyVal

/-- Python exceptions that the dynamic attribute/field accesses can raise. -/
inductive PyErr where
  | attributeError : PyErr
  | typeError : PyErr
deriving DecidableEq

/-- Model of x.get(k, d) for a Python value x: returns the binding (or the
default d) when x is a dict, and raises AttributeError when x is any
non-dict value, exactly as .get does on a non-dict object. -/
def dictGet (v : PyVal) (k : String) (d : PyVal) : Except PyErr PyVal :=
  match v with
  | .dict fields =>
      match fields.lookup k with
      | some x => .ok x
      | Option.none => .ok d
  | _ => .error .attributeError

/-- Embedding of get_text: result.get with key result, default empty dict,
then .get with key text, default empty string. The second .get raises
AttributeError when the first step produced a non-dict value. -/
def get_text (result : PyVal) : Except PyErr PyVal :=
  (dictGet result "result" (.dict [])).bind
    (fun r => dictGet r "text" (.str ""))

/-- Embedding of get_duration: result.get with key audio_info, default
empty dict, then .get with key duration, default 0, then true division by
1000 (modelled exactly over the rationals). A non-numeric duration value
raises TypeError at the division, as in Python; bools divide as 0 or 1. -/
def get_duration (result : PyVal) : Except PyErr ℚ :=
  (dictGet result "audio_info" (.dict [])).bind (fun ai =>
    (dictGet ai "duration" (.int 0)).bind (fun ms =>
      match ms with
      | .int n => .ok ((n : ℚ) / 1000)
      | .bool b => .ok ((if b then 1 else 0) / 1000)
      | _ => .error .typeError))

/-! ## Constants of the source -/

def STATUS_SUCCESS : String := "20000000"
def STATUS_SILENT : String := "20000003"
def MAX_FILE_SIZE : Nat := 100 * 1024 * 1024
def RECOMMENDED_SIZE : Nat := 20 * 1024 * 1024

def AUDIO_EXTENSIONS : List String :=
  [".mp3", ".wav", ".ogg", ".m4a", ".flac", ".aac"]

def VIDEO_EXTENSIONS : List String :=
  [".mp4", ".mkv", ".avi", ".mov", ".wmv", ".flv", ".webm", ".ts", ".m4v"]

/-! ## MediaClassifier: get_file_type -/

/-- Result categories of get_file_type. -/
inductive FileType where
  | audio : FileType
  | video : FileType
  | unknown : FileType
deriving DecidableEq

/-- The characters after the last occurrence of c (the whole list when c
does not occur). -/
def afterLast (c : Char) (l : List Char) : List Char :=
  (l.reverse.takeWhile (fun x => x ≠ c)).reverse

/-- The final path component, for slash-normalized paths: everything after
the last slash (pathlib Path.name). -/
def pathName (p : String) : String :=
  String.mk (afterLast (Char.ofNat 47) p.data)

/-- Embedding of pathlib Path.suffix on the final component: the text from
the last dot onward, provided that dot is neither the first nor the last
character of the name; otherwise the empty string. With t the run of
non-dot characters ending the name, a dot at index i = len - t.len - 1
exists with 0 < i < len - 1 exactly when 0 < t.len and t.len + 1 < len. -/
def pathSuffix (p : String) : String :=
  let n := (pathName p).data
  let t := (n.reverse.takeWhile (fun x => x ≠ Char.ofNat 46)).reverse
  if 0 < t.length ∧ t.length + 1 < n.length then
    String.mk (Char.ofNat 46 :: t)
  else ""

/-- Lowercasing as Python str.lower on ASCII text, applied characterwise. -/
def lowerStr (s : String) : String :=
  String.mk (s.data.map Char.toLower)

/-- Embedding of get_file_type: lowercase the suffix and test membership in
the two fixed extension sets. -/
def get_file_type (p : String) : FileType :=
  let ext := lowerStr (pathSuffix p)
  if ext ∈ AUDIO_EXTENSIONS then .audio
  else if ext ∈ VIDEO_EXTENSIONS then .video
  else .unknown

/-! ## Errors raised by the pipeline

One constructor per exception site of the source: ValueError at the
argument check of transcribe (InvalidArguments of the spec),
FileNotFoundError (NotFound), FFmpegNotFoundError (ToolUnavailable),
RuntimeError in extract_audio_from_video (ConversionFailed), ValueError at
the size check (TooLarge), TranscriptionError, and the two requests
exceptions (Timeout, ConnectionFailed). -/

inductive TransError where
  | invalidArguments (msg : String) : TransError
  | notFound (path : String) : TransError
  | toolUnavailable (msg : String) : TransError
  | conversionFailed (msg : String) : TransError
  | tooLarge : TransError
  | transcription (code message : String) : TransError
  | httpTimeout : TransError
  | connectionFailed : TransError
deriving DecidableEq

/-! ## HTTP response model and the status protocol of API calls -/

/-- One HTTP response: its headers (association list, as read by
headers.get) and its body already parsed as JSON (response.json()). -/
structure HttpResponse where
  headers : List (String × String)
  body : PyVal

/-- Model of headers.get(k, d). -/
def headerGet (hs : List (String × String)) (k d : String) : String :=
  match hs.lookup k with
  | some v => v
  | Option.none => d

/-- Transport-level failures of requests.post. -/
inductive HttpFailure where
  | timeout : HttpFailure
  | connectionError : HttpFailure
deriving DecidableEq

/-- What an API call produces: the value returned or the exception raised,
plus whether the advisory warning about silent audio was logged. -/
structure ApiReturn where
  result : Except TransError PyVal
  silentWarning : Bool

/-- Embedding of the response-interpretation tail of AudioTranscriber.call
to the API: read the status code (default empty) and message (default
Unknown error) from the headers; success returns the parsed body, the
silent status also returns the parsed body but logs a warning, and any
other status raises TranscriptionError with that code and message. -/
def call_api (resp : HttpResponse) : ApiReturn :=
  let status_code := headerGet resp.headers "X-Api-Status-Code" ""
  let message := headerGet resp.headers "X-Api-Message" "Unknown error"
  if status_code = STATUS_SUCCESS then ⟨.ok resp.body, false⟩
  else if status_code = STATUS_SILENT then ⟨.ok resp.body, true⟩
  else ⟨.error (.transcription status_code message), false⟩

/-! ## Environment: the world the one invocation runs against -/

/-- Environment the pipeline interacts with: the filesystem (existence and
size of paths), the FFmpeg tool (availability, and the behavior of the one
run: timeout, exit code, stderr text, whether it left a file at the output
path), the generated temporary output path, and the outcome of the one
HTTP POST. -/
structure Env where
  fileExists : String → Bool
  fileSize : String → Nat
  ffmpegAvailable : Bool
  ffmpegTimesOut : Bool
  ffmpegExitCode : Int
  ffmpegStderr : String
  ffmpegOutputCreated : Bool
  tempName : String
  httpResult : Except HttpFailure HttpResponse

/-- Effect counters of one invocation: HTTP POSTs issued, FFmpeg processes
started, and filesystem operations performed (exists, stat, open). -/
structure Trace where
  network : Nat
  ffmpegRuns : Nat
  fsAccess : Nat
deriving DecidableEq

/-- requests.post followed by status interpretation: a transport failure
raises Timeout or ConnectionError, otherwise the response goes through
call_api. -/
def submit (env : Env) : ApiReturn :=
  match env.httpResult with
  | .error .timeout => ⟨.error .httpTimeout, false⟩
  | .error .connectionError => ⟨.error .connectionFailed, false⟩
  | .ok resp => call_api resp

/-! ## MediaConverter: extract_audio_from_video -/

/-- Outcome of extract_audio_from_video: the returned path or raised
exception, whether the external process was actually started, and the
files the run left at the output path. -/
structure ExtractRun where
  result : Except TransError String
  ran : Bool
  onDisk : List String

/-- Embedding of extract_audio_from_video with the default temporary
output path: the FFmpeg availability check comes first and raises
FFmpegNotFoundError before any process starts; then the run itself, where
subprocess.TimeoutExpired is re-raised as RuntimeError, a non-zero exit
raises RuntimeError with the verbatim stderr appended, and a missing
output file raises RuntimeError even on exit code zero; on success the
output path is returned. Whatever file the process left at the output
path stays on disk in every raising branch. -/
def extract_audio_from_video (env : Env) : ExtractRun :=
  if ¬ env.ffmpegAvailable then
    ⟨.error (.toolUnavailable "FFmpeg is required for video processing. Install from https://ffmpeg.org or via package manager"), false, []⟩
  else
    let disk := if env.ffmpegOutputCreated then [env.tempName] else []
    if env.ffmpegTimesOut then
      ⟨.error (.conversionFailed "FFmpeg timeout: video file may be too large"), true, disk⟩
    else if env.ffmpegExitCode ≠ 0 then
      ⟨.error (.conversionFailed ("FFmpeg error: " ++ env.ffmpegStderr)), true, disk⟩
    else if ¬ env.ffmpegOutputCreated then
      ⟨.error (.conversionFailed "Audio extraction failed: output file not created"), true, []⟩
    else
      ⟨.ok env.tempName, true, [env.tempName]⟩

/-! ## The transcribe pipeline -/

/-- Intermediate state reached by the body of transcribe, before the
finally block: result, effect trace, the temp files registered for cleanup
(the temp-files list of the transcriber), the temp files existing on disk,
and the silent-warning flag. -/
structure Mid where
  result : Except TransError PyVal
  trace : Trace
  registered : List String
  onDisk : List String
  silentWarning : Bool

/-- The tail of transcribing a file after classification and any
conversion: stat the file, raise ValueError when the size exceeds
MAX_FILE_SIZE (before any network traffic), otherwise read and
base64-encode the file and submit the request. -/
def upload_file (env : Env) (path : String) (t : Trace)
    (registered onDisk : List String) : Mid :=
  let t1 : Trace := ⟨t.network, t.ffmpegRuns, t.fsAccess + 1⟩
  if env.fileSize path > MAX_FILE_SIZE then
    ⟨.error .tooLarge, t1, registered, onDisk, false⟩
  else
    let t2 : Trace := ⟨t1.network + 1, t1.ffmpegRuns, t1.fsAccess + 1⟩
    let r := submit env
    ⟨r.result, t2, registered, onDisk, r.silentWarning⟩

/-- Embedding of the file branch of transcribe: check existence (raising
FileNotFoundError), classify by extension, convert first when the file is
a video (registering the converted file for cleanup only when conversion
returned normally), treat unknown extensions as audio with only a warning,
then upload. -/
def transcribe_file (env : Env) (file_path : String) : Mid :=
  let t0 : Trace := ⟨0, 0, 1⟩
  if ¬ env.fileExists file_path then
    ⟨.error (.notFound file_path), t0, [], [], false⟩
  else if get_file_type file_path = .video then
    let ex := extract_audio_from_video env
    let t1 : Trace := ⟨0, if ex.ran then 1 else 0, 1⟩
    match ex.result with
    | .error e => ⟨.error e, t1, [], ex.onDisk, false⟩
    | .ok audio_path => upload_file env audio_path t1 [audio_path] ex.onDisk
  else
    upload_file env file_path t0 [] []

/-- Embedding of the URL branch of transcribe: build the URL body and
submit; no filesystem or FFmpeg activity. -/
def transcribe_url (env : Env) : Mid :=
  let r := submit env
  ⟨r.result, ⟨1, 0, 0⟩, [], [], r.silentWarning⟩

/-- Python truthiness of an optional string argument: None and the empty
string are falsy. -/
def provided (x : Option String) : Bool :=
  match x with
  | Option.none => false
  | some s => s ≠ ""

/-- Observable outcome of one whole transcribe invocation: the returned
value or raised exception, the effect trace, the temporary files still on
disk when the invocation completes, and the silent-warning flag. -/
structure Run where
  result : Except TransError PyVal
  trace : Trace
  diskTempFiles : List String
  silentWarning : Bool

/-- Embedding of AudioTranscriber.transcribe: the two ValueError argument
checks run before the try block, so they touch neither the network nor the
filesystem and create nothing; then the file or URL branch under a finally
that, unless keep_temp is set, unlinks every registered temp file that
exists. Files on disk that were never registered survive the cleanup. -/
def transcribe (env : Env) (url file : Option String) (keep_temp : Bool) : Run :=
  if ¬ provided url ∧ ¬ provided file then
    ⟨.error (.invalidArguments "Either url or file must be provided"), ⟨0, 0, 0⟩, [], false⟩
  else if provided url ∧ provided file then
    ⟨.error (.invalidArguments "Provide either url or file, not both"), ⟨0, 0, 0⟩, [], false⟩
  else
    let m := if provided file then transcribe_file env (file.getD "") else transcribe_url env
    let disk := if keep_temp then m.onDisk
                else m.onDisk.filter (fun x => ! m.registered.contains x)
    ⟨m.result, m.trace, disk, m.silentWarning⟩

/-! ## Concrete environments for evaluating the model -/

/-- A benign environment: every path exists with a small size, FFmpeg is
installed and the one run succeeds quickly, and the HTTP call answers with
the success status. -/
def envBase : Env :=
  ⟨fun _ => true, fun _ => 10, true, false, 0, "", true, "/tmp/audio_ab12cd34.mp3",
   .ok ⟨[("X-Api-Status-Code", "20000000")], .dict [("result", .dict [("text", .str "hi")])]⟩⟩

/-- envBase, except the FFmpeg run exits with code 1 after having written
a partial file at the output path. -/
def envExitOne : Env := { envBase with ffmpegExitCode := 1 }

/-- envBase, except every file is one byte over the 100 MiB cap. -/
def envHuge : Env := { envBase with fileSize := fun _ => MAX_FILE_SIZE + 1 }

/-- envBase, except FFmpeg is not on the system path. -/
def envNoFfmpeg : Env := { envBase with ffmpegAvailable := false }

/-- A concrete parsed result body used to compare the silent and success
protocol branches. -/
def silentBody : PyVal := .dict [("result", .dict [("text", .str "")])]

end Transcribe


namespace Transcribe

/-! ## Theorems -/

/-- The two extension sets of the source are disjoint. -/
theorem audio_video_disjoint : ∀ s ∈ VIDEO_EXTENSIONS, s ∉ AUDIO_EXTENSIONS := by
  decide

/-- C6: get_file_type returns audio when the lowercased suffix is a
supported audio extension, video when it is a supported video extension,
and unknown otherwise; and the classification depends only on the
lowercased suffix of the path (hence is case-insensitive and never reads
file content). -/
theorem get_file_type_spec (p : String) :
    (lowerStr (pathSuffix p) ∈ AUDIO_EXTENSIONS → get_file_type p = FileType.audio) ∧
    (lowerStr (pathSuffix p) ∈ VIDEO_EXTENSIONS → get_file_type p = FileType.video) ∧
    (lowerStr (pathSuffix p) ∉ AUDIO_EXTENSIONS → lowerStr (pathSuffix p) ∉ VIDEO_EXTENSIONS →
      get_file_type p = FileType.unknown) ∧
    (∀ q : String, lowerStr (pathSuffix q) = lowerStr (pathSuffix p) →
      get_file_type q = get_file_type p) := by
  refine ⟨?_, ?_, ?_, ?_⟩
  · intro h
    simp [get_file_type, h]
  · intro h
    have hna := audio_video_disjoint _ h
    simp [get_file_type, h, hna]
  · intro ha hv
    simp [get_file_type, ha, hv]
  · intro q hq
    simp [get_file_type, hq]

/-- Witness for C6 at a concrete path with an uppercase extension. -/
theorem get_file_type_spec_witness :
    lowerStr (pathSuffix "clips/talk.MP3") ∈ AUDIO_EXTENSIONS ∧
    get_file_type "clips/talk.MP3" = FileType.audio :=
  ⟨by decide, (get_file_type_spec "clips/talk.MP3").1 (by decide)⟩

/-- C8: get_duration returns 0 when the audio_info.duration field is
absent (whether audio_info itself is missing or present without a
duration), returns the millisecond value divided by 1000 when it is
present, and get_text returns the empty string when result.text is absent
(whether result itself is missing or present without a text field). -/
theorem result_accessors_defaults (fs ais rs : List (String × PyVal)) (n : Int) :
    (fs.lookup "audio_info" = Option.none → get_duration (.dict fs) = .ok 0) ∧
    (fs.lookup "audio_info" = some (.dict ais) → ais.lookup "duration" = Option.none →
      get_duration (.dict fs) = .ok 0) ∧
    (fs.lookup "audio_info" = some (.dict ais) → ais.lookup "duration" = some (.int n) →
      get_duration (.dict fs) = .ok ((n : ℚ) / 1000)) ∧
    (fs.lookup "result" = Option.none → get_text (.dict fs) = .ok (.str "")) ∧
    (fs.lookup "result" = some (.dict rs) → rs.lookup "text" = Option.none →
      get_text (.dict fs) = .ok (.str "")) := by
  refine ⟨?_, ?_, ?_, ?_, ?_⟩
  · intro h
    simp [get_duration, dictGet, h, Except.bind]
  · intro h1 h2
    simp [get_duration, dictGet, h1, h2, Except.bind]
  · intro h1 h2
    simp [get_duration, dictGet, h1, h2, Except.bind]
  · intro h
    simp [get_text, dictGet, h, Except.bind]
  · intro h1 h2
    simp [get_text, dictGet, h1, h2, Except.bind]

/-- Witness for C8 at concrete bodies: a 2500 ms duration divides to 5/2
seconds, and a body missing both fields yields the defaults. -/
theorem result_accessors_defaults_witness :
    ([("audio_info", PyVal.dict [("duration", PyVal.int 2500)])].lookup "audio_info"
        = some (PyVal.dict [("duration", PyVal.int 2500)])) ∧
    ([("duration", PyVal.int 2500)].lookup "duration" = some (PyVal.int 2500)) ∧
    get_duration (PyVal.dict [("audio_info", PyVal.dict [("duration", PyVal.int 2500)])])
        = .ok ((2500 : ℚ) / 1000) ∧
    (([] : List (String × PyVal)).lookup "result" = Option.none) ∧
    get_text (PyVal.dict []) = .ok (.str "") :=
  ⟨rfl, rfl,
   (result_accessors_defaults _ [("duration", PyVal.int 2500)] [] 2500).2.2.1 rfl rfl,
   rfl,
   (result_accessors_defaults [] [] [] 0).2.2.2.1 rfl⟩

/-- C9 counterexample: a body whose result field is present but is a
string, not an object; get_text raises AttributeError on it, so get_text
is not total over arbitrary bodies. -/
theorem get_text_raises_on_nondict_result :
    get_text (PyVal.dict [("result", PyVal.str "hello")]) = .error PyErr.attributeError := rfl

/-- C9 amended: get_text never raises on a body that is a dict whose
result field, when present, is itself a dict; missing fields at either
level yield the empty-string default. When the result field holds a
non-dict value, get_text raises AttributeError. -/
theorem get_text_total_on_dict_result (fs : List (String × PyVal)) :
    (fs.lookup "result" = Option.none ∨ ∃ rs, fs.lookup "result" = some (.dict rs)) →
    (get_text (.dict fs)).isOk = true := by
  rintro (h | ⟨rs, h⟩)
  · simp [get_text, dictGet, h, Except.bind, Except.isOk, Except.toBool]
  · cases hl : rs.lookup "text" with
    | none => simp [get_text, dictGet, h, hl, Except.bind, Except.isOk, Except.toBool]
    | some v => simp [get_text, dictGet, h, hl, Except.bind, Except.isOk, Except.toBool]

/-- Witness for the amended C9 at a concrete silent-style body with no
result field. -/
theorem get_text_total_on_dict_result_witness :
    (([("audio_info", PyVal.dict [])] : List (String × PyVal)).lookup "result" = Option.none) ∧
    (get_text (PyVal.dict [("audio_info", PyVal.dict [])])).isOk = true :=
  ⟨rfl, get_text_total_on_dict_result [("audio_info", PyVal.dict [])] (Or.inl rfl)⟩

end Transcribe

namespace Transcribe

/-- C1: whenever the status header of the response is neither the success
code nor the silent code, the API call raises TranscriptionError carrying
exactly that status code and the message read verbatim from the response
headers. -/
theorem call_api_failure_verbatim (resp : HttpResponse) (c m : String) :
    headerGet resp.headers "X-Api-Status-Code" "" = c →
    headerGet resp.headers "X-Api-Message" "Unknown error" = m →
    c ≠ STATUS_SUCCESS → c ≠ STATUS_SILENT →
    (call_api resp).result = .error (.transcription c m) := by
  intro hc hm h1 h2
  simp [call_api, hc, hm, h1, h2]

/-- Witness for C1 at a concrete response with status 45000001 and message
bad request. -/
theorem call_api_failure_verbatim_witness :
    headerGet [("X-Api-Status-Code", "45000001"), ("X-Api-Message", "bad request")]
      "X-Api-Status-Code" "" = "45000001" ∧
    ("45000001" ≠ STATUS_SUCCESS) ∧ ("45000001" ≠ STATUS_SILENT) ∧
    (call_api ⟨[("X-Api-Status-Code", "45000001"), ("X-Api-Message", "bad request")],
        .dict []⟩).result
      = .error (.transcription "45000001" "bad request") :=
  ⟨rfl, by decide, by decide,
   call_api_failure_verbatim
     ⟨[("X-Api-Status-Code", "45000001"), ("X-Api-Message", "bad request")], .dict []⟩
     "45000001" "bad request" rfl rfl (by decide) (by decide)⟩

/-- C2 counterexample: on the same parsed body, the value returned for the
silent status equals the value returned for the success status, so a
caller cannot distinguish the silent outcome from the success outcome by
any tag of the returned value; the only programmatic distinction the code
offers is that failures raise while silent does not. -/
theorem silent_indistinguishable_from_success :
    (call_api ⟨[("X-Api-Status-Code", "20000003")], silentBody⟩).result
      = (call_api ⟨[("X-Api-Status-Code", "20000000")], silentBody⟩).result ∧
    (call_api ⟨[("X-Api-Status-Code", "20000003")], silentBody⟩).result = .ok silentBody := by
  exact ⟨rfl, rfl⟩

/-- C2 amended: a response with the silent status code does not raise: the
call returns the parsed body exactly as the success branch does, and logs
the no-speech advisory warning; that warning, not any tag of the returned
value, is the only mark of the silent case, while failures are
distinguished by the raised TranscriptionError. -/
theorem call_api_silent_returns_body (resp : HttpResponse) :
    headerGet resp.headers "X-Api-Status-Code" "" = STATUS_SILENT →
    (call_api resp).result = .ok resp.body ∧ (call_api resp).silentWarning = true := by
  intro h
  simp [call_api, h, STATUS_SILENT, STATUS_SUCCESS]

/-- Witness for the amended C2 at a concrete silent response. -/
theorem call_api_silent_returns_body_witness :
    headerGet [("X-Api-Status-Code", "20000003")] "X-Api-Status-Code" "" = STATUS_SILENT ∧
    ((call_api ⟨[("X-Api-Status-Code", "20000003")], silentBody⟩).result = .ok silentBody ∧
     (call_api ⟨[("X-Api-Status-Code", "20000003")], silentBody⟩).silentWarning = true) :=
  ⟨rfl, call_api_silent_returns_body ⟨[("X-Api-Status-Code", "20000003")], silentBody⟩ rfl⟩

/-- C7: the converter checks FFmpeg availability first and raises
FFmpegNotFoundError without starting any process; with the tool available
it raises RuntimeError on a timeout of the run, on a non-zero exit (with
the verbatim stderr in the message), or on a missing output file even
after exit code zero; and when the run exits zero with the output file in
place it returns the output path. -/
theorem extract_audio_spec (env : Env) :
    (env.ffmpegAvailable = false →
      (∃ msg, (extract_audio_from_video env).result = .error (.toolUnavailable msg)) ∧
      (extract_audio_from_video env).ran = false) ∧
    (env.ffmpegAvailable = true → env.ffmpegTimesOut = true →
      (extract_audio_from_video env).result
        = .error (.conversionFailed "FFmpeg timeout: video file may be too large") ∧
      (extract_audio_from_video env).ran = true) ∧
    (env.ffmpegAvailable = true → env.ffmpegTimesOut = false → env.ffmpegExitCode ≠ 0 →
      (extract_audio_from_video env).result
        = .error (.conversionFailed ("FFmpeg error: " ++ env.ffmpegStderr))) ∧
    (env.ffmpegAvailable = true → env.ffmpegTimesOut = false → env.ffmpegExitCode = 0 →
      env.ffmpegOutputCreated = false →
      (extract_audio_from_video env).result
        = .error (.conversionFailed "Audio extraction failed: output file not created")) ∧
    (env.ffmpegAvailable = true → env.ffmpegTimesOut = false → env.ffmpegExitCode = 0 →
      env.ffmpegOutputCreated = true →
      (extract_audio_from_video env).result = .ok env.tempName) := by
  refine ⟨?_, ?_, ?_, ?_, ?_⟩
  · intro h
    refine ⟨⟨"FFmpeg is required for video processing. Install from https://ffmpeg.org or via package manager", ?_⟩, ?_⟩ <;>
      simp [extract_audio_from_video, h]
  · intro ha ht
    constructor <;> simp [extract_audio_from_video, ha, ht]
  · intro ha ht he
    simp [extract_audio_from_video, ha, ht, he]
  · intro ha ht he ho
    simp [extract_audio_from_video, ha, ht, he, ho]
  · intro ha ht he ho
    simp [extract_audio_from_video, ha, ht, he, ho]

/-- Witness for C7 in an environment without FFmpeg: the tool check fails
before any process starts. -/
theorem extract_audio_spec_witness :
    envNoFfmpeg.ffmpegAvailable = false ∧
    (∃ msg, (extract_audio_from_video envNoFfmpeg).result = .error (.toolUnavailable msg)) ∧
    (extract_audio_from_video envNoFfmpeg).ran = false :=
  ⟨rfl, (extract_audio_spec envNoFfmpeg).1 rfl⟩

end Transcribe

namespace Transcribe

/-- C3: when both url and file are truthy, or neither is, transcribe
raises ValueError and the whole invocation performs no network call, no
FFmpeg run, no filesystem access, and leaves no temporary file. -/
theorem transcribe_arg_check_no_side_effects (env : Env) (url file : Option String)
    (keep_temp : Bool) :
    ((provided url = true ∧ provided file = true) ∨
     (provided url = false ∧ provided file = false)) →
    ∃ msg, transcribe env url file keep_temp =
      ⟨.error (.invalidArguments msg), ⟨0, 0, 0⟩, [], false⟩ := by
  rintro (⟨hu, hf⟩ | ⟨hu, hf⟩)
  · exact ⟨"Provide either url or file, not both", by simp [transcribe, hu, hf]⟩
  · exact ⟨"Either url or file must be provided", by simp [transcribe, hu, hf]⟩

/-- Witness for C3: both arguments supplied. -/
theorem transcribe_arg_check_no_side_effects_witness :
    (provided (some "http://x") = true ∧ provided (some "a.mp3") = true) ∧
    ∃ msg, transcribe envBase (some "http://x") (some "a.mp3") false =
      ⟨.error (.invalidArguments msg), ⟨0, 0, 0⟩, [], false⟩ :=
  ⟨⟨by decide, by decide⟩,
   transcribe_arg_check_no_side_effects envBase (some "http://x") (some "a.mp3") false
     (Or.inl ⟨by decide, by decide⟩)⟩

/-- The status-protocol interpretation never raises the argument-check
ValueError. -/
theorem call_api_no_invalid (resp : HttpResponse) (msg : String) :
    (call_api resp).result ≠ .error (.invalidArguments msg) := by
  simp only [call_api]
  split
  · simp
  · split <;> simp

/-- Submission never raises the argument-check ValueError. -/
theorem submit_no_invalid (env : Env) (msg : String) :
    (submit env).result ≠ .error (.invalidArguments msg) := by
  simp only [submit]
  split
  · simp
  · simp
  · exact call_api_no_invalid _ msg

/-- The upload tail never raises the argument-check ValueError. -/
theorem upload_file_no_invalid (env : Env) (p : String) (t : Trace)
    (reg dsk : List String) (msg : String) :
    (upload_file env p t reg dsk).result ≠ .error (.invalidArguments msg) := by
  simp only [upload_file]
  split
  · simp
  · exact submit_no_invalid env msg

/-- The converter never raises the argument-check ValueError. -/
theorem extract_no_invalid (env : Env) (msg : String) :
    (extract_audio_from_video env).result ≠ .error (.invalidArguments msg) := by
  simp only [extract_audio_from_video]
  split
  · simp
  · split
    · simp
    · split
      · simp
      · split <;> simp

/-- The file branch never raises the argument-check ValueError. -/
theorem transcribe_file_no_invalid (env : Env) (p msg : String) :
    (transcribe_file env p).result ≠ .error (.invalidArguments msg) := by
  unfold transcribe_file
  split
  · simp
  · split
    · cases heq : (extract_audio_from_video env).result with
      | error e =>
          simp only [heq]
          intro hc
          simp only [Except.error.injEq] at hc
          exact extract_no_invalid env msg (by rw [heq, hc])
      | ok ap =>
          simp only [heq]
          exact upload_file_no_invalid env ap _ _ _ msg
    · exact upload_file_no_invalid env p _ _ _ msg

end Transcribe

namespace Transcribe

/-- Reduction of a file-only invocation to the file branch followed by the
cleanup of the finally block. -/
theorem transcribe_file_only (env : Env) (f : String) (k : Bool) (hf : f ≠ "") :
    transcribe env Option.none (some f) k =
      ⟨(transcribe_file env f).result, (transcribe_file env f).trace,
       if k then (transcribe_file env f).onDisk
       else (transcribe_file env f).onDisk.filter
         (fun x => ! (transcribe_file env f).registered.contains x),
       (transcribe_file env f).silentWarning⟩ := by
  have hpf : provided (some f) = true := by simp [provided, hf]
  have hpn : provided Option.none = false := rfl
  simp [transcribe, hpn, hpf]

/-- C10: transcribe applies Python truthiness to its arguments, so an
empty url string counts as absent: with an empty url and a nonempty file
the call behaves exactly like the file-only call and never raises the
argument-check ValueError, while an empty url together with an empty or
missing file fails as if neither argument were provided. -/
theorem transcribe_empty_string_as_absent (env : Env) (f : String) (keep_temp : Bool) :
    f ≠ "" →
    (transcribe env (some "") (some f) keep_temp
      = transcribe env Option.none (some f) keep_temp) ∧
    (∀ msg, (transcribe env (some "") (some f) keep_temp).result
      ≠ .error (.invalidArguments msg)) ∧
    ((transcribe env (some "") (some "") keep_temp).result
      = .error (.invalidArguments "Either url or file must be provided")) ∧
    ((transcribe env (some "") Option.none keep_temp).result
      = .error (.invalidArguments "Either url or file must be provided")) := by
  intro hf
  have hpf : provided (some f) = true := by simp [provided, hf]
  have hpu : provided (some "") = false := by decide
  have hpn : provided Option.none = false := rfl
  have hsame : transcribe env (some "") (some f) keep_temp
      = transcribe env Option.none (some f) keep_temp := by
    simp [transcribe, hpu, hpf, hpn]
  refine ⟨hsame, ?_, ?_, ?_⟩
  · intro msg
    rw [hsame, transcribe_file_only env f keep_temp hf]
    exact transcribe_file_no_invalid env f msg
  · simp [transcribe, hpu]
  · simp [transcribe, hpu, hpn]

/-- Witness for C10 at a concrete nonempty file path. -/
theorem transcribe_empty_string_as_absent_witness :
    ("a.mp3" ≠ "") ∧
    ((transcribe envBase (some "") (some "a.mp3") false
        = transcribe envBase Option.none (some "a.mp3") false) ∧
     (∀ msg, (transcribe envBase (some "") (some "a.mp3") false).result
        ≠ .error (.invalidArguments msg)) ∧
     ((transcribe envBase (some "") (some "") false).result
        = .error (.invalidArguments "Either url or file must be provided")) ∧
     ((transcribe envBase (some "") Option.none false).result
        = .error (.invalidArguments "Either url or file must be provided"))) :=
  ⟨by decide, transcribe_empty_string_as_absent envBase "a.mp3" false (by decide)⟩

/-- C5: whenever the file submitted for upload is over the 100 MiB cap —
the file itself on the audio/unknown path, or the converted audio file on
the video path — the invocation raises the TooLarge ValueError and issues
no network call at all. -/
theorem transcribe_too_large_before_network (env : Env) (f : String) (k : Bool) :
    f ≠ "" → env.fileExists f = true →
    ((get_file_type f ≠ FileType.video → env.fileSize f > MAX_FILE_SIZE →
        (transcribe env Option.none (some f) k).result = .error .tooLarge ∧
        (transcribe env Option.none (some f) k).trace.network = 0) ∧
     (get_file_type f = FileType.video →
        (extract_audio_from_video env).result = .ok env.tempName →
        env.fileSize env.tempName > MAX_FILE_SIZE →
        (transcribe env Option.none (some f) k).result = .error .tooLarge ∧
        (transcribe env Option.none (some f) k).trace.network = 0)) := by
  intro hf hex
  rw [transcribe_file_only env f k hf]
  constructor
  · intro hnv hsz
    constructor <;> simp [transcribe_file, hex, hnv, upload_file, hsz]
  · intro hv hok hsz
    constructor <;> simp [transcribe_file, hex, hv, hok, upload_file, hsz]

/-- Witness for C5: a 100 MiB + 1 byte audio file. -/
theorem transcribe_too_large_before_network_witness :
    ("big.mp3" ≠ "") ∧ envHuge.fileExists "big.mp3" = true ∧
    get_file_type "big.mp3" ≠ FileType.video ∧
    envHuge.fileSize "big.mp3" > MAX_FILE_SIZE ∧
    (transcribe envHuge Option.none (some "big.mp3") false).result = .error .tooLarge ∧
    (transcribe envHuge Option.none (some "big.mp3") false).trace.network = 0 :=
  ⟨by decide, rfl, by decide, by decide,
   (transcribe_too_large_before_network envHuge "big.mp3" false (by decide) rfl).1
     (by decide) (by decide)⟩

end Transcribe

namespace Transcribe

/-- The upload tail passes the registered list through unchanged. -/
theorem upload_file_registered (env : Env) (p : String) (t : Trace)
    (reg dsk : List String) : (upload_file env p t reg dsk).registered = reg := by
  simp only [upload_file]
  split <;> rfl

/-- The upload tail passes the on-disk list through unchanged. -/
theorem upload_file_onDisk (env : Env) (p : String) (t : Trace)
    (reg dsk : List String) : (upload_file env p t reg dsk).onDisk = dsk := by
  simp only [upload_file]
  split <;> rfl

/-- When the FFmpeg run neither times out nor exits non-zero, the
converter either leaves nothing on disk (tool missing, or no output
produced) or returns the output path with exactly that file on disk. -/
theorem extract_disk_lemma (env : Env) :
    env.ffmpegTimesOut = false → env.ffmpegExitCode = 0 →
    (extract_audio_from_video env).onDisk = [] ∨
    extract_audio_from_video env = ⟨.ok env.tempName, true, [env.tempName]⟩ := by
  intro ht he
  by_cases ha : env.ffmpegAvailable = true
  · by_cases ho : env.ffmpegOutputCreated = true
    · right
      simp [extract_audio_from_video, ha, ht, he, ho]
    · left
      simp [extract_audio_from_video, ha, ht, he, ho]
  · left
    simp [extract_audio_from_video, ha]

/-- When the FFmpeg run neither times out nor exits non-zero, every temp
file the file branch leaves on disk is registered for cleanup. -/
theorem transcribe_file_disk_clean (env : Env) (p : String) :
    env.ffmpegTimesOut = false → env.ffmpegExitCode = 0 →
    (transcribe_file env p).onDisk.filter
      (fun x => ! (transcribe_file env p).registered.contains x) = [] := by
  intro ht he
  by_cases hx : env.fileExists p = true
  · by_cases hv : get_file_type p = FileType.video
    · rcases extract_disk_lemma env ht he with hd | hfull
      · cases hr : (extract_audio_from_video env).result with
        | error e =>
            simp [transcribe_file, hx, hv, hr, hd]
        | ok ap =>
            simp [transcribe_file, hx, hv, hr, hd,
              upload_file_onDisk, upload_file_registered]
      · simp [transcribe_file, hx, hv, hfull,
          upload_file_onDisk, upload_file_registered]
    · simp [transcribe_file, hx, hv, upload_file_onDisk, upload_file_registered]
  · simp [transcribe_file, hx]

/-- C4 amended: whenever the conversion process does not itself fail (no
timeout and exit code zero — in particular on every audio, URL, silent,
HTTP-failure and over-size path, and on every video run whose conversion
completes), a transcribe invocation without keep_temp leaves no temporary
file on disk. When the FFmpeg process fails after writing a partial
output file, that file was never registered and survives. -/
theorem transcribe_temp_cleanup (env : Env) (url file : Option String) :
    env.ffmpegTimesOut = false → env.ffmpegExitCode = 0 →
    (transcribe env url file false).diskTempFiles = [] := by
  intro ht he
  by_cases h1 : (¬ provided url ∧ ¬ provided file : Prop)
  · simp [transcribe, h1]
  · by_cases h2 : (provided url ∧ provided file : Prop)
    · simp [transcribe, h1, h2]
    · by_cases hf : provided file = true
      · have hu : provided url = false := by
          cases hpu : provided url with
          | false => rfl
          | true => exact absurd ⟨hpu, hf⟩ h2
        simpa [transcribe, hu, hf] using transcribe_file_disk_clean env (file.getD "") ht he
      · have hu : provided url = true := by
          cases hpu : provided url with
          | false => exact absurd ⟨by simp [hpu], by simp [hf]⟩ h1
          | true => rfl
        simp [transcribe, hu, hf, transcribe_url]

/-- Witness for the amended C4: a video input in the benign environment
whose conversion, upload and cleanup all complete. -/
theorem transcribe_temp_cleanup_witness :
    envBase.ffmpegTimesOut = false ∧ envBase.ffmpegExitCode = 0 ∧
    (transcribe envBase Option.none (some "clip.mp4") false).diskTempFiles = [] :=
  ⟨rfl, rfl, transcribe_temp_cleanup envBase Option.none (some "clip.mp4") rfl rfl⟩

/-- C4 counterexample: a video invocation without keep_temp in which the
FFmpeg process writes a partial output file and then exits with code 1:
the conversion error propagates before the file is registered for
cleanup, so the temporary converted-audio file still exists on disk when
the invocation completes. -/
theorem temp_file_leak_on_failed_conversion :
    (transcribe envExitOne Option.none (some "clip.mp4") false).diskTempFiles
      = ["/tmp/audio_ab12cd34.mp3"] ∧
    (transcribe envExitOne Option.none (some "clip.mp4") false).diskTempFiles ≠ [] ∧
    (transcribe envExitOne Option.none (some "clip.mp4") false).result
      = .error (.conversionFailed "FFmpeg error: ") := by
  refine ⟨rfl, ?_, rfl⟩
  intro hc
  rw [show (transcribe envExitOne Option.none (some "clip.mp4") false).diskTempFiles
      = ["/tmp/audio_ab12cd34.mp3"] from rfl] at hc
  simp at hc

end Transcribe
